import Mathlib

/-!
Verification of the `Window` wrapper in `src/ui/src/windows.rs` of
mark-summerfield/libui-rs.

The Rust code is a thin adapter over the native libui toolkit: every public
method marshals its arguments, calls one native function, and marshals the
result back.  We embed it as explicit state passing over a `UIState` that
carries

  * the native toolkit's window store (modelled from the spec, section 6:
    a fixed function table of get/set pairs on per-window properties),
  * the thread-local `WINDOWS` registry (`thread_local! { static WINDOWS }`),
  * a log of destroyed handles, and
  * the one-time initialization flag of `ffi_utils`.

Every operation additionally returns the list of `Event`s it performed, in
order: the defensive initialization check and each native call.  Strings are
byte lists (`List Nat`); `CString::new` fails exactly on an interior null
byte, which is the `EncodingError` of the spec's error taxonomy.
-/

namespace LibUI

/-- Error taxonomy of the spec (section 7): `EncodingError` is raised when a
text argument contains a byte incompatible with the native representation
(an embedded null).  In the Rust source this surfaces as the `NulError`
panic of `CString::new(..).unwrap()`. -/
inductive UIError where
  | encodingError
deriving Repr, DecidableEq

/-- The `Window` wrapper generated by `define_control!(Window, uiWindow,
ui_window)`: a lightweight value holding one opaque native handle
(`ui_window: *mut uiWindow`), modelled as a natural number. -/
structure Window where
  ui_window : Nat
deriving Repr, DecidableEq

/-- Modelled from the spec: the per-window state the native toolkit keeps
behind the opaque handle — title (byte string), screen position, content
size, the three boolean-as-int toggles, and the single child control. -/
structure NativeWindow where
  title : List Nat
  posX : Int
  posY : Int
  contentW : Int
  contentH : Int
  fullscreen : Int
  borderless : Int
  margined : Int
  child : Option Nat
deriving Repr, DecidableEq

/-- The whole embedded state: the `ffi_utils` one-time initialization flag,
the native toolkit's handle allocator and window store (an association list
in creation order), the thread-local `WINDOWS` registry of wrappers, and a
log of handles passed to the native destroy call, in call order. -/
structure UIState where
  inited : Bool
  nextHandle : Nat
  native : List (Nat × NativeWindow)
  windows : List Window
  destroyLog : List Nat
deriving Repr, DecidableEq

/-- Observable steps of an operation: the defensive initialization check,
and one entry per native call, named after the `ui_sys` function. -/
inductive Event where
  | ensureInit
  | nativeCall (name : String)
deriving Repr, DecidableEq

/-- Result of running an operation: its value, the state after it, and the
events it performed in order. -/
structure Eff (α : Type) where
  val : α
  state : UIState
  events : List Event
deriving Repr

/-- Modelled from the spec: `ffi_utils::ensure_initialized` (the `ffi_utils`
module is not under `src/`) — "checked defensively on every call, idempotent
no-op after first success".  The check itself is logged as an event. -/
def ensure_initialized (s : UIState) : Eff Unit :=
  { val := ()
    state := if s.inited then s else { s with inited := true }
    events := [Event.ensureInit] }

/-- `CString::new(title.as_bytes().to_vec())`: fails exactly when the byte
string contains an embedded null byte (Rust's `NulError`, the spec's
`EncodingError`); otherwise yields the bytes unchanged. -/
def CString_new (bytes : List Nat) : Except UIError (List Nat) :=
  if bytes.contains 0 then Except.error UIError.encodingError else Except.ok bytes

/-- `bool as c_int`: `true` is 1, `false` is 0. -/
def boolToCInt (b : Bool) : Int :=
  if b then 1 else 0

/-- Update the native store at one handle. -/
def setNative (h : Nat) (f : NativeWindow → NativeWindow) (s : UIState) : UIState :=
  { s with native := s.native.map (fun p => if p.1 = h then (p.1, f p.2) else p) }

/-- Modelled from the spec: `uiNewWindow(title, width, height, menubar)`
allocates a fresh handle whose window starts with the given title and
content size. -/
def uiNewWindow (title : List Nat) (width height : Int) (menubar : Int) (s : UIState) :
    Eff Nat :=
  let h := s.nextHandle
  let nw : NativeWindow :=
    { title := title, posX := 0, posY := 0, contentW := width, contentH := height
      fullscreen := 0, borderless := 0, margined := 0, child := none }
  { val := h
    state := { s with nextHandle := h + 1, native := s.native ++ [(h, nw)] }
    events := [Event.nativeCall "uiNewWindow"] }

/-- Modelled from the spec: `uiWindowTitle` returns the stored title. -/
def uiWindowTitle (h : Nat) (s : UIState) : Eff (List Nat) :=
  { val := ((s.native.lookup h).map NativeWindow.title).getD []
    state := s
    events := [Event.nativeCall "uiWindowTitle"] }

/-- Modelled from the spec: `uiWindowSetTitle` stores the given title. -/
def uiWindowSetTitle (h : Nat) (title : List Nat) (s : UIState) : Eff Unit :=
  { val := ()
    state := setNative h (fun nw => { nw with title := title }) s
    events := [Event.nativeCall "uiWindowSetTitle"] }

/-- Modelled from the spec: `uiWindowPosition` writes the stored position
through its two out-parameters (which the wrapper initializes to 0). -/
def uiWindowPosition (h : Nat) (s : UIState) : Eff (Int × Int) :=
  { val := match s.native.lookup h with
           | some nw => (nw.posX, nw.posY)
           | none => (0, 0)
    state := s
    events := [Event.nativeCall "uiWindowPosition"] }

/-- Modelled from the spec: `uiWindowSetPosition` stores the position. -/
def uiWindowSetPosition (h : Nat) (x y : Int) (s : UIState) : Eff Unit :=
  { val := ()
    state := setNative h (fun nw => { nw with posX := x, posY := y }) s
    events := [Event.nativeCall "uiWindowSetPosition"] }

/-- Modelled from the spec: `uiWindowCenter` requests centering; the effect
is asynchronous at the window manager's discretion, so no stored property
changes. -/
def uiWindowCenter (h : Nat) (s : UIState) : Eff Unit :=
  { val := (), state := s, events := [Event.nativeCall "uiWindowCenter"] }

/-- Modelled from the spec: `uiWindowContentSize` via out-parameters. -/
def uiWindowContentSize (h : Nat) (s : UIState) : Eff (Int × Int) :=
  { val := match s.native.lookup h with
           | some nw => (nw.contentW, nw.contentH)
           | none => (0, 0)
    state := s
    events := [Event.nativeCall "uiWindowContentSize"] }

/-- Modelled from the spec: `uiWindowSetContentSize` stores the size. -/
def uiWindowSetContentSize (h : Nat) (w ht : Int) (s : UIState) : Eff Unit :=
  { val := ()
    state := setNative h (fun nw => { nw with contentW := w, contentH := ht }) s
    events := [Event.nativeCall "uiWindowSetContentSize"] }

/-- Modelled from the spec: `uiWindowFullscreen` returns the stored
truthy/falsy integer. -/
def uiWindowFullscreen (h : Nat) (s : UIState) : Eff Int :=
  { val := ((s.native.lookup h).map NativeWindow.fullscreen).getD 0
    state := s
    events := [Event.nativeCall "uiWindowFullscreen"] }

/-- Modelled from the spec: `uiWindowSetFullscreen` stores the integer. -/
def uiWindowSetFullscreen (h : Nat) (v : Int) (s : UIState) : Eff Unit :=
  { val := ()
    state := setNative h (fun nw => { nw with fullscreen := v }) s
    events := [Event.nativeCall "uiWindowSetFullscreen"] }

/-- Modelled from the spec: `uiWindowBorderless`. -/
def uiWindowBorderless (h : Nat) (s : UIState) : Eff Int :=
  { val := ((s.native.lookup h).map NativeWindow.borderless).getD 0
    state := s
    events := [Event.nativeCall "uiWindowBorderless"] }

/-- Modelled from the spec: `uiWindowSetBorderless`. -/
def uiWindowSetBorderless (h : Nat) (v : Int) (s : UIState) : Eff Unit :=
  { val := ()
    state := setNative h (fun nw => { nw with borderless := v }) s
    events := [Event.nativeCall "uiWindowSetBorderless"] }

/-- Modelled from the spec: `uiWindowMargined`. -/
def uiWindowMargined (h : Nat) (s : UIState) : Eff Int :=
  { val := ((s.native.lookup h).map NativeWindow.margined).getD 0
    state := s
    events := [Event.nativeCall "uiWindowMargined"] }

/-- Modelled from the spec: `uiWindowSetMargined`. -/
def uiWindowSetMargined (h : Nat) (v : Int) (s : UIState) : Eff Unit :=
  { val := ()
    state := setNative h (fun nw => { nw with margined := v }) s
    events := [Event.nativeCall "uiWindowSetMargined"] }

/-- Modelled from the spec: `uiWindowSetChild` associates the single child
control, replacing any previous one. -/
def uiWindowSetChild (h : Nat) (child : Nat) (s : UIState) : Eff Unit :=
  { val := ()
    state := setNative h (fun nw => { nw with child := some child }) s
    events := [Event.nativeCall "uiWindowSetChild"] }

/-- Modelled from the spec: the three event-registration entry points take a
function pointer plus user data, stored opaquely by the native layer; no
per-window property of the store changes. -/
def uiWindowOnPositionChanged (h : Nat) (s : UIState) : Eff Unit :=
  { val := (), state := s, events := [Event.nativeCall "uiWindowOnPositionChanged"] }

/-- Modelled from the spec: see `uiWindowOnPositionChanged`. -/
def uiWindowOnContentSizeChanged (h : Nat) (s : UIState) : Eff Unit :=
  { val := (), state := s, events := [Event.nativeCall "uiWindowOnContentSizeChanged"] }

/-- Modelled from the spec: see `uiWindowOnPositionChanged`. -/
def uiWindowOnClosing (h : Nat) (s : UIState) : Eff Unit :=
  { val := (), state := s, events := [Event.nativeCall "uiWindowOnClosing"] }

/-- Modelled from the spec: `uiControlDestroy(handle)` (reached through the
`destroy` method that `define_control!` generates) releases the native
window; we drop it from the store and log the handle. -/
def uiControlDestroy (h : Nat) (s : UIState) : Eff Unit :=
  { val := ()
    state := { s with native := s.native.filter (fun p => p.1 != h)
                      destroyLog := s.destroyLog ++ [h] }
    events := [Event.nativeCall "uiControlDestroy"] }

/-- `Window::from_ui_window`: wrap a raw handle. -/
def Window.from_ui_window (h : Nat) : Window :=
  { ui_window := h }

/-- `Window::as_ui_window`: expose the raw handle; no check, no native
call. -/
def Window.as_ui_window (w : Window) : Nat :=
  w.ui_window

/-- `Window::title`: check initialization, then `Text::new(uiWindowTitle(..))`
(`Text` of `ffi_utils` carries the returned bytes). -/
def Window.title (w : Window) (s : UIState) : Eff (List Nat) :=
  let r1 := ensure_initialized s
  let r2 := uiWindowTitle w.ui_window r1.state
  { val := r2.val, state := r2.state, events := r1.events ++ r2.events }

/-- `Window::set_title`: check initialization, convert the title with
`CString::new(..).unwrap()` (the unwrap's panic on an embedded null is the
error case), then `uiWindowSetTitle`. -/
def Window.set_title (w : Window) (title : List Nat) (s : UIState) :
    Eff (Except UIError Unit) :=
  let r1 := ensure_initialized s
  match CString_new title with
  | Except.error e => { val := Except.error e, state := r1.state, events := r1.events }
  | Except.ok c =>
      let r2 := uiWindowSetTitle w.ui_window c r1.state
      { val := Except.ok (), state := r2.state, events := r1.events ++ r2.events }

/-- `Window::position`. -/
def Window.position (w : Window) (s : UIState) : Eff (Int × Int) :=
  let r1 := ensure_initialized s
  let r2 := uiWindowPosition w.ui_window r1.state
  { val := r2.val, state := r2.state, events := r1.events ++ r2.events }

/-- `Window::set_position` (`x as c_int` is the identity on `i32`). -/
def Window.set_position (w : Window) (x y : Int) (s : UIState) : Eff Unit :=
  let r1 := ensure_initialized s
  let r2 := uiWindowSetPosition w.ui_window x y r1.state
  { val := (), state := r2.state, events := r1.events ++ r2.events }

/-- `Window::center`. -/
def Window.center (w : Window) (s : UIState) : Eff Unit :=
  let r1 := ensure_initialized s
  let r2 := uiWindowCenter w.ui_window r1.state
  { val := (), state := r2.state, events := r1.events ++ r2.events }

/-- `Window::content_size`. -/
def Window.content_size (w : Window) (s : UIState) : Eff (Int × Int) :=
  let r1 := ensure_initialized s
  let r2 := uiWindowContentSize w.ui_window r1.state
  { val := r2.val, state := r2.state, events := r1.events ++ r2.events }

/-- `Window::set_content_size`. -/
def Window.set_content_size (w : Window) (width height : Int) (s : UIState) : Eff Unit :=
  let r1 := ensure_initialized s
  let r2 := uiWindowSetContentSize w.ui_window width height r1.state
  { val := (), state := r2.state, events := r1.events ++ r2.events }

/-- `Window::fullscreen`: the native integer is decoded with `!= 0`. -/
def Window.fullscreen (w : Window) (s : UIState) : Eff Bool :=
  let r1 := ensure_initialized s
  let r2 := uiWindowFullscreen w.ui_window r1.state
  { val := decide (r2.val ≠ 0), state := r2.state, events := r1.events ++ r2.events }

/-- `Window::set_fullscreen`: the boolean is encoded with `as c_int`. -/
def Window.set_fullscreen (w : Window) (b : Bool) (s : UIState) : Eff Unit :=
  let r1 := ensure_initialized s
  let r2 := uiWindowSetFullscreen w.ui_window (boolToCInt b) r1.state
  { val := (), state := r2.state, events := r1.events ++ r2.events }

/-- `Window::borderless`. -/
def Window.borderless (w : Window) (s : UIState) : Eff Bool :=
  let r1 := ensure_initialized s
  let r2 := uiWindowBorderless w.ui_window r1.state
  { val := decide (r2.val ≠ 0), state := r2.state, events := r1.events ++ r2.events }

/-- `Window::set_borderless`. -/
def Window.set_borderless (w : Window) (b : Bool) (s : UIState) : Eff Unit :=
  let r1 := ensure_initialized s
  let r2 := uiWindowSetBorderless w.ui_window (boolToCInt b) r1.state
  { val := (), state := r2.state, events := r1.events ++ r2.events }

/-- `Window::margined`. -/
def Window.margined (w : Window) (s : UIState) : Eff Bool :=
  let r1 := ensure_initialized s
  let r2 := uiWindowMargined w.ui_window r1.state
  { val := decide (r2.val ≠ 0), state := r2.state, events := r1.events ++ r2.events }

/-- `Window::set_margined`. -/
def Window.set_margined (w : Window) (b : Bool) (s : UIState) : Eff Unit :=
  let r1 := ensure_initialized s
  let r2 := uiWindowSetMargined w.ui_window (boolToCInt b) r1.state
  { val := (), state := r2.state, events := r1.events ++ r2.events }

/-- `Window::set_child` (the child control handle is forwarded, ownership is
not taken). -/
def Window.set_child (w : Window) (child : Nat) (s : UIState) : Eff Unit :=
  let r1 := ensure_initialized s
  let r2 := uiWindowSetChild w.ui_window child r1.state
  { val := (), state := r2.state, events := r1.events ++ r2.events }

/-- `Window::on_position_changed`: check initialization, then register the
shim and the leaked boxed closure with the native layer. -/
def Window.on_position_changed (w : Window) (s : UIState) : Eff Unit :=
  let r1 := ensure_initialized s
  let r2 := uiWindowOnPositionChanged w.ui_window r1.state
  { val := (), state := r2.state, events := r1.events ++ r2.events }

/-- `Window::on_content_size_changed`. -/
def Window.on_content_size_changed (w : Window) (s : UIState) : Eff Unit :=
  let r1 := ensure_initialized s
  let r2 := uiWindowOnContentSizeChanged w.ui_window r1.state
  { val := (), state := r2.state, events := r1.events ++ r2.events }

/-- `Window::on_closing`. -/
def Window.on_closing (w : Window) (s : UIState) : Eff Unit :=
  let r1 := ensure_initialized s
  let r2 := uiWindowOnClosing w.ui_window r1.state
  { val := (), state := r2.state, events := r1.events ++ r2.events }

/-- The `c_callback` shim inside `on_position_changed`: the native loop hands
it the raw window handle and the user-data pointer; it rebuilds
`Window { ui_window: window }` and applies the caller's `FnMut` closure to
it once.  The closure is modelled with its captured mutable state `σ` made
explicit. -/
def on_position_changed_c_callback {σ : Type} (f : σ → Window → σ) (window : Nat)
    (data : σ) : σ :=
  f data { ui_window := window }

/-- The `c_callback` shim inside `on_content_size_changed`; identical shape
to the position one. -/
def on_content_size_changed_c_callback {σ : Type} (f : σ → Window → σ) (window : Nat)
    (data : σ) : σ :=
  f data { ui_window := window }

/-- The `c_callback` shim inside `on_closing`: rebuilds the wrapper from the
raw handle, applies the closure once, and returns its boolean `as i32`. -/
def on_closing_c_callback {σ : Type} (f : σ → Window → σ × Bool) (window : Nat)
    (data : σ) : σ × Int :=
  let r := f data { ui_window := window }
  (r.1, if r.2 then 1 else 0)

/-- `Window::new`: check initialization, convert the title (the unwrap's
panic on an embedded null is the error case), call `uiNewWindow`, push a
clone of the wrapper onto the thread-local `WINDOWS` registry, and return
the wrapper. -/
def Window.new (title : List Nat) (width height : Int) (has_menubar : Bool)
    (s : UIState) : Eff (Except UIError Window) :=
  let r1 := ensure_initialized s
  match CString_new title with
  | Except.error e => { val := Except.error e, state := r1.state, events := r1.events }
  | Except.ok c =>
      let r2 := uiNewWindow c width height (boolToCInt has_menubar) r1.state
      let window := Window.from_ui_window r2.val
      { val := Except.ok window
        state := { r2.state with windows := r2.state.windows ++ [window] }
        events := r1.events ++ r2.events }

/-- `Window::destroy`, generated by `define_control!`. Modelled from the
spec: the macro is not under `src/`; per section 4.2 every operation checks
initialization defensively before its native call, here `uiControlDestroy`. -/
def Window.destroy (w : Window) (s : UIState) : Eff Unit :=
  let r1 := ensure_initialized s
  let r2 := uiControlDestroy w.ui_window r1.state
  { val := (), state := r2.state, events := r1.events ++ r2.events }

/-- The `for window in windows.drain(..) { window.destroy() }` loop body,
applied to each drained window in order. -/
def destroyFold : List Window → Eff Unit → Eff Unit
  | [], a => a
  | w :: ws, a =>
      let r := Window.destroy w a.state
      destroyFold ws { val := (), state := r.state, events := a.events ++ r.events }

/-- `Window::destroy_all_windows`: drain the thread-local registry (leaving
it empty) and destroy each drained window in creation order. -/
def Window.destroy_all_windows (s : UIState) : Eff Unit :=
  destroyFold s.windows { val := (), state := { s with windows := [] }, events := [] }

/-- One constructor per public operation of `impl Window`, so that
properties quantifying over "every public operation" are a single
induction. -/
inductive WinOp where
  | as_ui_window (w : Window)
  | title (w : Window)
  | set_title (w : Window) (t : List Nat)
  | position (w : Window)
  | set_position (w : Window) (x y : Int)
  | center (w : Window)
  | on_position_changed (w : Window)
  | content_size (w : Window)
  | set_content_size (w : Window) (a b : Int)
  | fullscreen (w : Window)
  | set_fullscreen (w : Window) (b : Bool)
  | on_content_size_changed (w : Window)
  | on_closing (w : Window)
  | borderless (w : Window)
  | set_borderless (w : Window) (b : Bool)
  | set_child (w : Window) (c : Nat)
  | margined (w : Window)
  | set_margined (w : Window) (b : Bool)
  | mk_new (t : List Nat) (width height : Int) (menubar : Bool)
  | from_ui_window (h : Nat)
  | destroy (w : Window)
  | destroy_all_windows

/-- Run one public operation for its state effect and event trace. -/
def runOp (op : WinOp) (s : UIState) : UIState × List Event :=
  match op with
  | WinOp.as_ui_window _ => (s, [])
  | WinOp.title w => let r := Window.title w s; (r.state, r.events)
  | WinOp.set_title w t => let r := Window.set_title w t s; (r.state, r.events)
  | WinOp.position w => let r := Window.position w s; (r.state, r.events)
  | WinOp.set_position w x y => let r := Window.set_position w x y s; (r.state, r.events)
  | WinOp.center w => let r := Window.center w s; (r.state, r.events)
  | WinOp.on_position_changed w =>
      let r := Window.on_position_changed w s; (r.state, r.events)
  | WinOp.content_size w => let r := Window.content_size w s; (r.state, r.events)
  | WinOp.set_content_size w a b =>
      let r := Window.set_content_size w a b s; (r.state, r.events)
  | WinOp.fullscreen w => let r := Window.fullscreen w s; (r.state, r.events)
  | WinOp.set_fullscreen w b => let r := Window.set_fullscreen w b s; (r.state, r.events)
  | WinOp.on_content_size_changed w =>
      let r := Window.on_content_size_changed w s; (r.state, r.events)
  | WinOp.on_closing w => let r := Window.on_closing w s; (r.state, r.events)
  | WinOp.borderless w => let r := Window.borderless w s; (r.state, r.events)
  | WinOp.set_borderless w b => let r := Window.set_borderless w b s; (r.state, r.events)
  | WinOp.set_child w c => let r := Window.set_child w c s; (r.state, r.events)
  | WinOp.margined w => let r := Window.margined w s; (r.state, r.events)
  | WinOp.set_margined w b => let r := Window.set_margined w b s; (r.state, r.events)
  | WinOp.mk_new t a b m => let r := Window.new t a b m s; (r.state, r.events)
  | WinOp.from_ui_window _ => (s, [])
  | WinOp.destroy w => let r := Window.destroy w s; (r.state, r.events)
  | WinOp.destroy_all_windows =>
      let r := Window.destroy_all_windows s; (r.state, r.events)

/-- Iterate the constructor `n` times with fixed arguments. -/
def createN (n : Nat) (title : List Nat) (width height : Int) (mb : Bool)
    (s : UIState) : UIState :=
  match n with
  | 0 => s
  | Nat.succ m => (Window.new title width height mb (createN m title width height mb s)).state

/-- A trace respects the initialization discipline when no native call
appears before the first defensive check. -/
def checkBeforeNative : List Event → Bool
  | [] => true
  | Event.ensureInit :: _ => true
  | Event.nativeCall _ :: _ => false

/-- Every native call in the trace is preceded by an earlier defensive
initialization check. -/
def nativePreceded (tr : List Event) : Prop :=
  ∀ i : Fin tr.length, (∃ n, tr.get i = Event.nativeCall n) →
    ∃ j : Fin tr.length, (j : Nat) < (i : Nat) ∧ tr.get j = Event.ensureInit

/-- The state of a fresh process: toolkit uninitialized, no windows. -/
def initState : UIState :=
  { inited := false, nextHandle := 0, native := [], windows := [], destroyLog := [] }

/-- A one-window state used to instantiate the universally quantified
theorems at concrete inputs. -/
def demoNW : NativeWindow :=
  { title := [72, 105], posX := 7, posY := 8, contentW := 320, contentH := 240
    fullscreen := 0, borderless := 0, margined := 5, child := none }

/-- See `demoNW`. -/
def demoState : UIState :=
  { inited := true, nextHandle := 1, native := [(0, demoNW)]
    windows := [{ ui_window := 0 }], destroyLog := [] }

/- ### Helper lemmas -/

theorem ensure_state_eq (s : UIState) :
    (ensure_initialized s).state = { s with inited := true } := by
  unfold ensure_initialized
  by_cases h : s.inited
  · simp only [h, if_pos]
    cases s
    simp_all
  · simp [h]

theorem ensure_events_eq (s : UIState) :
    (ensure_initialized s).events = [Event.ensureInit] := rfl

theorem lookup_update_self (l : List (Nat × NativeWindow)) (h : Nat)
    (f : NativeWindow → NativeWindow) (nw : NativeWindow)
    (hl : l.lookup h = some nw) :
    (l.map (fun p => if p.1 = h then (p.1, f p.2) else p)).lookup h = some (f nw) := by
  induction l with
  | nil => simp [List.lookup] at hl
  | cons p t ih =>
    obtain ⟨k, v⟩ := p
    by_cases hk : h = k
    · subst hk
      simp only [List.lookup, beq_self_eq_true] at hl
      obtain rfl : v = nw := Option.some.inj hl
      have hmap : (if (h, v).1 = h then ((h, v).1, f (h, v).2) else (h, v)) = (h, f v) := by
        simp
      rw [List.map_cons, hmap]
      simp [List.lookup]
    · have hne : (h == k) = false := beq_eq_false_iff_ne.mpr hk
      simp only [List.lookup, hne] at hl
      simp only [List.map]
      rw [if_neg (fun hkh => hk hkh.symm)]
      simp only [List.lookup, hne]
      exact ih hl

theorem setNative_lookup (s : UIState) (h : Nat) (f : NativeWindow → NativeWindow)
    (nw : NativeWindow) (hl : s.native.lookup h = some nw) :
    (setNative h f s).native.lookup h = some (f nw) := by
  unfold setNative
  exact lookup_update_self s.native h f nw hl

theorem destroy_eq (w : Window) (s : UIState) :
    Window.destroy w s =
      { val := ()
        state := { s with inited := true
                          native := s.native.filter (fun p => p.1 != w.ui_window)
                          destroyLog := s.destroyLog ++ [w.ui_window] }
        events := [Event.ensureInit, Event.nativeCall "uiControlDestroy"] } := by
  simp only [Window.destroy, uiControlDestroy, ensure_state_eq, ensure_events_eq]
  rfl

theorem destroyFold_windows (ws : List Window) (a : Eff Unit) :
    (destroyFold ws a).state.windows = a.state.windows := by
  induction ws generalizing a with
  | nil => rfl
  | cons w ws ih =>
    simp only [destroyFold]
    rw [ih, destroy_eq]

theorem destroyFold_destroyLog (ws : List Window) (a : Eff Unit) :
    (destroyFold ws a).state.destroyLog
      = a.state.destroyLog ++ ws.map Window.ui_window := by
  induction ws generalizing a with
  | nil => simp [destroyFold]
  | cons w ws ih =>
    simp only [destroyFold]
    rw [ih, destroy_eq]
    simp

theorem destroyFold_events (ws : List Window) (a : Eff Unit) :
    (destroyFold ws a).events
      = a.events
        ++ (ws.map (fun _w => [Event.ensureInit, Event.nativeCall "uiControlDestroy"])).flatten := by
  induction ws generalizing a with
  | nil => simp [destroyFold]
  | cons w ws ih =>
    simp only [destroyFold]
    rw [ih, destroy_eq]
    simp

theorem new_ok_eq (t : List Nat) (wd ht : Int) (mb : Bool) (s : UIState)
    (hnull : t.contains 0 = false) :
    Window.new t wd ht mb s =
      { val := Except.ok (Window.from_ui_window s.nextHandle)
        state := { inited := true
                   nextHandle := s.nextHandle + 1
                   native := s.native ++ [(s.nextHandle,
                     { title := t, posX := 0, posY := 0, contentW := wd, contentH := ht
                       fullscreen := 0, borderless := 0, margined := 0, child := none })]
                   windows := s.windows ++ [Window.from_ui_window s.nextHandle]
                   destroyLog := s.destroyLog }
        events := [Event.ensureInit, Event.nativeCall "uiNewWindow"] } := by
  simp only [Window.new, CString_new, hnull, Bool.false_eq_true, if_false, uiNewWindow,
    ensure_state_eq, ensure_events_eq]
  rfl

theorem set_title_ok_eq (w : Window) (t : List Nat) (s : UIState)
    (hnull : t.contains 0 = false) :
    Window.set_title w t s =
      { val := Except.ok ()
        state := setNative w.ui_window (fun nw => { nw with title := t })
                   { s with inited := true }
        events := [Event.ensureInit, Event.nativeCall "uiWindowSetTitle"] } := by
  simp only [Window.set_title, CString_new, hnull, Bool.false_eq_true, if_false,
    uiWindowSetTitle, ensure_state_eq, ensure_events_eq]
  rfl

theorem createN_spec (n : Nat) (t : List Nat) (wd ht : Int) (mb : Bool) (s : UIState)
    (hnull : t.contains 0 = false) :
    (createN n t wd ht mb s).windows
        = s.windows ++ (List.range n).map (fun i => Window.from_ui_window (s.nextHandle + i)) ∧
    (createN n t wd ht mb s).nextHandle = s.nextHandle + n ∧
    (createN n t wd ht mb s).destroyLog = s.destroyLog := by
  induction n with
  | zero => simp [createN]
  | succ m ih =>
    obtain ⟨h1, h2, h3⟩ := ih
    simp only [createN]
    rw [new_ok_eq t wd ht mb _ hnull]
    refine ⟨?_, ?_, ?_⟩
    · show (createN m t wd ht mb s).windows
          ++ [Window.from_ui_window (createN m t wd ht mb s).nextHandle] = _
      rw [h1, h2, List.range_succ]
      simp
    · show (createN m t wd ht mb s).nextHandle + 1 = s.nextHandle + (m + 1)
      omega
    · exact h3

theorem checkBeforeNative_sound (tr : List Event) (h : checkBeforeNative tr = true) :
    nativePreceded tr := by
  intro i hnat
  cases tr with
  | nil => exact absurd i.isLt (by simp)
  | cons e rest =>
    cases e with
    | ensureInit =>
      rcases Nat.eq_zero_or_pos i.1 with h0 | hpos
      · obtain ⟨n, hn⟩ := hnat
        have hi0 : i = ⟨0, by simp⟩ := Fin.ext h0
        rw [hi0] at hn
        simp [List.get] at hn
      · exact ⟨⟨0, by simp⟩, hpos, rfl⟩
    | nativeCall n => simp [checkBeforeNative] at h

theorem runOp_events_shape (op : WinOp) (s : UIState) :
    (runOp op s).2 = [] ∨ ∃ r, (runOp op s).2 = Event.ensureInit :: r := by
  cases op with
  | as_ui_window w => exact Or.inl rfl
  | from_ui_window h => exact Or.inl rfl
  | set_title w t =>
    by_cases hn : t.contains 0
    · have hm : 0 ∈ t := by simpa using hn
      exact Or.inr ⟨[], by simp [runOp, Window.set_title, CString_new, hm, ensure_events_eq]⟩
    · have hn' : t.contains 0 = false := by simpa using hn
      refine Or.inr ⟨[Event.nativeCall "uiWindowSetTitle"], ?_⟩
      show (Window.set_title w t s).events = _
      rw [set_title_ok_eq w t s hn']
  | mk_new t a b m =>
    by_cases hn : t.contains 0
    · have hm : 0 ∈ t := by simpa using hn
      exact Or.inr ⟨[], by simp [runOp, Window.new, CString_new, hm, ensure_events_eq]⟩
    · have hn' : t.contains 0 = false := by simpa using hn
      refine Or.inr ⟨[Event.nativeCall "uiNewWindow"], ?_⟩
      show (Window.new t a b m s).events = _
      rw [new_ok_eq t a b m s hn']
  | destroy_all_windows =>
    have hev : (runOp WinOp.destroy_all_windows s).2
        = (s.windows.map
            (fun _w => [Event.ensureInit, Event.nativeCall "uiControlDestroy"])).flatten := by
      show (Window.destroy_all_windows s).events = _
      unfold Window.destroy_all_windows
      rw [destroyFold_events]
      rfl
    rw [hev]
    cases s.windows with
    | nil => exact Or.inl rfl
    | cons w ws => exact Or.inr ⟨_, rfl⟩
  | title w => exact Or.inr ⟨_, rfl⟩
  | position w => exact Or.inr ⟨_, rfl⟩
  | set_position w x y => exact Or.inr ⟨_, rfl⟩
  | center w => exact Or.inr ⟨_, rfl⟩
  | on_position_changed w => exact Or.inr ⟨_, rfl⟩
  | content_size w => exact Or.inr ⟨_, rfl⟩
  | set_content_size w a b => exact Or.inr ⟨_, rfl⟩
  | fullscreen w => exact Or.inr ⟨_, rfl⟩
  | set_fullscreen w b => exact Or.inr ⟨_, rfl⟩
  | on_content_size_changed w => exact Or.inr ⟨_, rfl⟩
  | on_closing w => exact Or.inr ⟨_, rfl⟩
  | borderless w => exact Or.inr ⟨_, rfl⟩
  | set_borderless w b => exact Or.inr ⟨_, rfl⟩
  | set_child w c => exact Or.inr ⟨_, rfl⟩
  | margined w => exact Or.inr ⟨_, rfl⟩
  | set_margined w b => exact Or.inr ⟨_, rfl⟩
  | destroy w => exact Or.inr ⟨_, rfl⟩

/- ### Claim theorems -/

/-- C1: creating N windows via the constructor appends exactly N entries to
the thread-local registry in creation order (fresh handles, no
deduplication), and a subsequent `destroy_all_windows()` leaves the registry
empty after destroying each prior handle in that same creation order (the
destroy log grows by exactly the registry's handles, in registry order). -/
theorem registry_create_then_destroy_all (n : Nat) (t : List Nat) (wd ht : Int)
    (mb : Bool) (s : UIState) (hnull : t.contains 0 = false) :
    (createN n t wd ht mb s).windows
        = s.windows ++ (List.range n).map (fun i => Window.from_ui_window (s.nextHandle + i)) ∧
    ((createN n t wd ht mb s).windows).length = s.windows.length + n ∧
    (Window.destroy_all_windows (createN n t wd ht mb s)).state.windows = [] ∧
    (Window.destroy_all_windows (createN n t wd ht mb s)).state.destroyLog
        = s.destroyLog ++ ((createN n t wd ht mb s).windows).map Window.ui_window := by
  obtain ⟨h1, h2, h3⟩ := createN_spec n t wd ht mb s hnull
  refine ⟨h1, ?_, ?_, ?_⟩
  · rw [h1]
    simp
  · show (Window.destroy_all_windows _).state.windows = []
    unfold Window.destroy_all_windows
    rw [destroyFold_windows]
  · unfold Window.destroy_all_windows
    rw [destroyFold_destroyLog]
    show (createN n t wd ht mb s).destroyLog ++ _ = _
    rw [h3]

/-- C1 witness: two windows created from the fresh state, then torn down. -/
theorem registry_create_then_destroy_all_witness :
    (([72] : List Nat).contains 0 = false) ∧
    ((createN 2 [72] 300 200 true initState).windows
        = initState.windows
          ++ (List.range 2).map (fun i => Window.from_ui_window (initState.nextHandle + i)) ∧
     ((createN 2 [72] 300 200 true initState).windows).length
        = initState.windows.length + 2 ∧
     (Window.destroy_all_windows (createN 2 [72] 300 200 true initState)).state.windows = [] ∧
     (Window.destroy_all_windows (createN 2 [72] 300 200 true initState)).state.destroyLog
        = initState.destroyLog
          ++ ((createN 2 [72] 300 200 true initState).windows).map Window.ui_window) :=
  ⟨by decide, registry_create_then_destroy_all 2 [72] 300 200 true initState (by decide)⟩

/-- C2: a title with an embedded null byte makes both `Window::new` and
`set_title` fail synchronously with `EncodingError`; the resulting state is
the input state with at most the init flag set (no native window is touched
or created, no truncated title is written) and no native call appears in the
trace. -/
theorem embedded_null_title_fails (t : List Nat) (wd ht : Int) (mb : Bool)
    (w : Window) (s : UIState) (hnull : t.contains 0 = true) :
    (Window.new t wd ht mb s).val = Except.error UIError.encodingError ∧
    (Window.new t wd ht mb s).state = { s with inited := true } ∧
    (Window.new t wd ht mb s).events = [Event.ensureInit] ∧
    (Window.set_title w t s).val = Except.error UIError.encodingError ∧
    (Window.set_title w t s).state = { s with inited := true } ∧
    (Window.set_title w t s).events = [Event.ensureInit] := by
  have hm : 0 ∈ t := by simpa using hnull
  simp [Window.new, Window.set_title, CString_new, hm, ensure_state_eq, ensure_events_eq]

/-- C2 witness: the one-byte title consisting of a null byte. -/
theorem embedded_null_title_fails_witness :
    (([0] : List Nat).contains 0 = true) ∧
    ((Window.new [0] 1 1 false initState).val = Except.error UIError.encodingError ∧
     (Window.new [0] 1 1 false initState).state = { initState with inited := true } ∧
     (Window.new [0] 1 1 false initState).events = [Event.ensureInit] ∧
     (Window.set_title { ui_window := 0 } [0] initState).val
        = Except.error UIError.encodingError ∧
     (Window.set_title { ui_window := 0 } [0] initState).state
        = { initState with inited := true } ∧
     (Window.set_title { ui_window := 0 } [0] initState).events = [Event.ensureInit]) :=
  ⟨by decide,
   embedded_null_title_fails [0] 1 1 false { ui_window := 0 } initState (by decide)⟩

/-- C3: for a title without embedded nulls and a live window, `set_title`
succeeds and a following `title()` returns exactly that title. -/
theorem set_title_title_roundtrip (w : Window) (t : List Nat) (s : UIState)
    (nw : NativeWindow) (hnull : t.contains 0 = false)
    (hlive : s.native.lookup w.ui_window = some nw) :
    (Window.set_title w t s).val = Except.ok () ∧
    (Window.title w (Window.set_title w t s).state).val = t := by
  rw [set_title_ok_eq w t s hnull]
  refine ⟨rfl, ?_⟩
  have hl2 : (setNative w.ui_window (fun nw => { nw with title := t })
      { s with inited := true }).native.lookup w.ui_window
      = some { nw with title := t } :=
    setNative_lookup _ _ _ _ hlive
  simp only [Window.title, uiWindowTitle, ensure_state_eq]
  rw [hl2]
  rfl

/-- C3 witness: a concrete live window in `demoState`. -/
theorem set_title_title_roundtrip_witness :
    (([65, 66] : List Nat).contains 0 = false) ∧
    (demoState.native.lookup (0 : Nat) = some demoNW) ∧
    ((Window.set_title { ui_window := 0 } [65, 66] demoState).val = Except.ok () ∧
     (Window.title { ui_window := 0 }
        (Window.set_title { ui_window := 0 } [65, 66] demoState).state).val = [65, 66]) :=
  ⟨by decide, rfl,
   set_title_title_roundtrip { ui_window := 0 } [65, 66] demoState demoNW (by decide) rfl⟩

/-- C4: for integers within the platform-representable `c_int` range and a
live window, `set_position(x, y); position()` returns `(x, y)` and
`set_content_size(w0, h0); content_size()` returns `(w0, h0)`. -/
theorem position_content_size_roundtrip (w : Window) (x y cw ch : Int)
    (s : UIState) (nw : NativeWindow)
    (hx : -2147483648 ≤ x ∧ x < 2147483648)
    (hy : -2147483648 ≤ y ∧ y < 2147483648)
    (hcw : -2147483648 ≤ cw ∧ cw < 2147483648)
    (hch : -2147483648 ≤ ch ∧ ch < 2147483648)
    (hlive : s.native.lookup w.ui_window = some nw) :
    (Window.position w (Window.set_position w x y s).state).val = (x, y) ∧
    (Window.content_size w (Window.set_content_size w cw ch s).state).val = (cw, ch) := by
  constructor
  · have hl2 : (setNative w.ui_window (fun nw => { nw with posX := x, posY := y })
        { s with inited := true }).native.lookup w.ui_window
        = some { nw with posX := x, posY := y } :=
      setNative_lookup _ _ _ _ hlive
    simp only [Window.set_position, uiWindowSetPosition, Window.position, uiWindowPosition,
      ensure_state_eq]
    rw [hl2]
  · have hl2 : (setNative w.ui_window (fun nw => { nw with contentW := cw, contentH := ch })
        { s with inited := true }).native.lookup w.ui_window
        = some { nw with contentW := cw, contentH := ch } :=
      setNative_lookup _ _ _ _ hlive
    simp only [Window.set_content_size, uiWindowSetContentSize, Window.content_size,
      uiWindowContentSize, ensure_state_eq]
    rw [hl2]

/-- C4 witness: concrete in-range coordinates on the demo window. -/
theorem position_content_size_roundtrip_witness :
    ((-2147483648 ≤ (3 : Int) ∧ (3 : Int) < 2147483648) ∧
     (-2147483648 ≤ (-4 : Int) ∧ (-4 : Int) < 2147483648) ∧
     (-2147483648 ≤ (640 : Int) ∧ (640 : Int) < 2147483648) ∧
     (-2147483648 ≤ (480 : Int) ∧ (480 : Int) < 2147483648) ∧
     demoState.native.lookup (0 : Nat) = some demoNW) ∧
    ((Window.position { ui_window := 0 }
        (Window.set_position { ui_window := 0 } 3 (-4) demoState).state).val = (3, -4) ∧
     (Window.content_size { ui_window := 0 }
        (Window.set_content_size { ui_window := 0 } 640 480 demoState).state).val
        = (640, 480)) :=
  ⟨⟨by decide, by decide, by decide, by decide, rfl⟩,
   position_content_size_roundtrip { ui_window := 0 } 3 (-4) 640 480 demoState demoNW
     (by decide) (by decide) (by decide) (by decide) rfl⟩

/-- C5: for a live window each boolean toggle round-trips (`set_fullscreen b;
fullscreen() == b`, same for borderless and margined), and each getter
decodes the stored native integer as true exactly when it is nonzero. -/
theorem boolean_toggle_roundtrip (w : Window) (b : Bool) (s : UIState)
    (nw : NativeWindow) (hlive : s.native.lookup w.ui_window = some nw) :
    (Window.fullscreen w (Window.set_fullscreen w b s).state).val = b ∧
    (Window.borderless w (Window.set_borderless w b s).state).val = b ∧
    (Window.margined w (Window.set_margined w b s).state).val = b ∧
    (Window.fullscreen w s).val = decide (nw.fullscreen ≠ 0) ∧
    (Window.borderless w s).val = decide (nw.borderless ≠ 0) ∧
    (Window.margined w s).val = decide (nw.margined ≠ 0) := by
  refine ⟨?_, ?_, ?_, ?_, ?_, ?_⟩
  · have hl2 : (setNative w.ui_window (fun nw => { nw with fullscreen := boolToCInt b })
        { s with inited := true }).native.lookup w.ui_window
        = some { nw with fullscreen := boolToCInt b } :=
      setNative_lookup _ _ _ _ hlive
    simp only [Window.set_fullscreen, uiWindowSetFullscreen, Window.fullscreen,
      uiWindowFullscreen, ensure_state_eq]
    rw [hl2]
    cases b <;> simp [boolToCInt]
  · have hl2 : (setNative w.ui_window (fun nw => { nw with borderless := boolToCInt b })
        { s with inited := true }).native.lookup w.ui_window
        = some { nw with borderless := boolToCInt b } :=
      setNative_lookup _ _ _ _ hlive
    simp only [Window.set_borderless, uiWindowSetBorderless, Window.borderless,
      uiWindowBorderless, ensure_state_eq]
    rw [hl2]
    cases b <;> simp [boolToCInt]
  · have hl2 : (setNative w.ui_window (fun nw => { nw with margined := boolToCInt b })
        { s with inited := true }).native.lookup w.ui_window
        = some { nw with margined := boolToCInt b } :=
      setNative_lookup _ _ _ _ hlive
    simp only [Window.set_margined, uiWindowSetMargined, Window.margined,
      uiWindowMargined, ensure_state_eq]
    rw [hl2]
    cases b <;> simp [boolToCInt]
  · simp only [Window.fullscreen, uiWindowFullscreen, ensure_state_eq]
    rw [hlive]
    rfl
  · simp only [Window.borderless, uiWindowBorderless, ensure_state_eq]
    rw [hlive]
    rfl
  · simp only [Window.margined, uiWindowMargined, ensure_state_eq]
    rw [hlive]
    rfl

/-- C5 witness: `b := true` on the demo window, whose stored `margined`
integer is the nonzero 5 (decoded as true) and whose `fullscreen` is 0
(decoded as false). -/
theorem boolean_toggle_roundtrip_witness :
    (demoState.native.lookup (0 : Nat) = some demoNW) ∧
    ((Window.fullscreen { ui_window := 0 }
        (Window.set_fullscreen { ui_window := 0 } true demoState).state).val = true ∧
     (Window.borderless { ui_window := 0 }
        (Window.set_borderless { ui_window := 0 } true demoState).state).val = true ∧
     (Window.margined { ui_window := 0 }
        (Window.set_margined { ui_window := 0 } true demoState).state).val = true ∧
     (Window.fullscreen { ui_window := 0 } demoState).val = decide (demoNW.fullscreen ≠ 0) ∧
     (Window.borderless { ui_window := 0 } demoState).val = decide (demoNW.borderless ≠ 0) ∧
     (Window.margined { ui_window := 0 } demoState).val = decide (demoNW.margined ≠ 0)) :=
  ⟨rfl, boolean_toggle_roundtrip { ui_window := 0 } true demoState demoNW rfl⟩

/-- C6: the `on_closing` shim invokes the registered closure exactly once on
the reconstructed wrapper (threading the closure's captured state through
one application) and returns its boolean to the native layer as an integer:
0 exactly when the closure returns false, 1 exactly when it returns true. -/
theorem on_closing_shim_threads_bool (σ : Type) (f : σ → Window → σ × Bool)
    (h : Nat) (d : σ) :
    on_closing_c_callback f h d
        = ((f d (Window.from_ui_window h)).1,
           if (f d (Window.from_ui_window h)).2 then 1 else 0) ∧
    ((on_closing_c_callback f h d).2 = 0 ↔ (f d (Window.from_ui_window h)).2 = false) ∧
    ((on_closing_c_callback f h d).2 = 1 ↔ (f d (Window.from_ui_window h)).2 = true) := by
  refine ⟨rfl, ?_, ?_⟩ <;>
    cases hb : (f d (Window.from_ui_window h)).2 <;>
      simp [on_closing_c_callback, Window.from_ui_window] at hb ⊢ <;>
        simp [hb]

/-- C8: the position-changed and content-size-changed shims apply the
caller's closure to a `Window` wrapper reconstructed from the raw handle the
native loop supplied, so the wrapper's handle equals that handle. -/
theorem callback_window_from_handle (σ : Type) (f : σ → Window → σ) (h : Nat)
    (d : σ) :
    (∃ w, on_position_changed_c_callback f h d = f d w ∧ w.ui_window = h) ∧
    (∃ w, on_content_size_changed_c_callback f h d = f d w ∧ w.ui_window = h) :=
  ⟨⟨{ ui_window := h }, rfl, rfl⟩, ⟨{ ui_window := h }, rfl, rfl⟩⟩

/-- C9: the thread-local registry is appended to only by a successful
constructor call (exactly one entry) and cleared only by
`destroy_all_windows`; every other public operation leaves its contents and
order unchanged. -/
theorem registry_frame_effect (op : WinOp) (s : UIState) :
    (runOp op s).1.windows =
      match op with
      | WinOp.mk_new t _ _ _ =>
          if t.contains 0 then s.windows
          else s.windows ++ [Window.from_ui_window s.nextHandle]
      | WinOp.destroy_all_windows => []
      | _ => s.windows := by
  cases op with
  | mk_new t a b m =>
    by_cases hn : t.contains 0
    · show (Window.new t a b m s).state.windows
          = if t.contains 0 = true then s.windows
            else s.windows ++ [Window.from_ui_window s.nextHandle]
      rw [if_pos hn]
      have hm : 0 ∈ t := by simpa using hn
      simp [Window.new, CString_new, hm, ensure_state_eq]
    · have hn' : t.contains 0 = false := by simpa using hn
      show (Window.new t a b m s).state.windows
          = if t.contains 0 = true then s.windows
            else s.windows ++ [Window.from_ui_window s.nextHandle]
      rw [new_ok_eq t a b m s hn', if_neg hn]
  | destroy_all_windows =>
    show (Window.destroy_all_windows s).state.windows = []
    unfold Window.destroy_all_windows
    rw [destroyFold_windows]
  | as_ui_window w => rfl
  | from_ui_window h => rfl
  | set_title w t =>
    show (Window.set_title w t s).state.windows = s.windows
    by_cases hn : t.contains 0
    · simp only [Window.set_title, CString_new, if_pos hn, ensure_state_eq]
    · rw [set_title_ok_eq w t s (by simpa using hn)]
      rfl
  | title w => simp only [runOp, Window.title, uiWindowTitle, ensure_state_eq]
  | position w => simp only [runOp, Window.position, uiWindowPosition, ensure_state_eq]
  | set_position w x y =>
    simp only [runOp, Window.set_position, uiWindowSetPosition, ensure_state_eq, setNative]
  | center w => simp only [runOp, Window.center, uiWindowCenter, ensure_state_eq]
  | on_position_changed w =>
    simp only [runOp, Window.on_position_changed, uiWindowOnPositionChanged, ensure_state_eq]
  | content_size w =>
    simp only [runOp, Window.content_size, uiWindowContentSize, ensure_state_eq]
  | set_content_size w a b =>
    simp only [runOp, Window.set_content_size, uiWindowSetContentSize, ensure_state_eq,
      setNative]
  | fullscreen w => simp only [runOp, Window.fullscreen, uiWindowFullscreen, ensure_state_eq]
  | set_fullscreen w b =>
    simp only [runOp, Window.set_fullscreen, uiWindowSetFullscreen, ensure_state_eq, setNative]
  | on_content_size_changed w =>
    simp only [runOp, Window.on_content_size_changed, uiWindowOnContentSizeChanged,
      ensure_state_eq]
  | on_closing w => simp only [runOp, Window.on_closing, uiWindowOnClosing, ensure_state_eq]
  | borderless w => simp only [runOp, Window.borderless, uiWindowBorderless, ensure_state_eq]
  | set_borderless w b =>
    simp only [runOp, Window.set_borderless, uiWindowSetBorderless, ensure_state_eq, setNative]
  | set_child w c => simp only [runOp, Window.set_child, uiWindowSetChild, ensure_state_eq,
      setNative]
  | margined w => simp only [runOp, Window.margined, uiWindowMargined, ensure_state_eq]
  | set_margined w b =>
    simp only [runOp, Window.set_margined, uiWindowSetMargined, ensure_state_eq, setNative]
  | destroy w =>
    show (Window.destroy w s).state.windows = s.windows
    rw [destroy_eq]

/-- C7: every public `Window` operation performs the defensive
initialization check before its first native call — its event trace never
shows a native call without an earlier check — and once the toolkit is
initialized the check is an idempotent no-op on the state. -/
theorem init_check_before_native (op : WinOp) (s : UIState) :
    checkBeforeNative (runOp op s).2 = true ∧
    nativePreceded (runOp op s).2 ∧
    (s.inited = true → (ensure_initialized s).state = s) := by
  have hc : checkBeforeNative (runOp op s).2 = true := by
    rcases runOp_events_shape op s with h | ⟨r, h⟩ <;> rw [h] <;> rfl
  refine ⟨hc, checkBeforeNative_sound _ hc, ?_⟩
  intro hi
  unfold ensure_initialized
  simp [hi]

/-- C7 witness: a concrete operation on the already-initialized demo state. -/
theorem init_check_before_native_witness :
    checkBeforeNative (runOp (WinOp.center { ui_window := 0 }) demoState).2 = true ∧
    (ensure_initialized demoState).state = demoState :=
  ⟨(init_check_before_native (WinOp.center { ui_window := 0 }) demoState).1,
   (init_check_before_native (WinOp.center { ui_window := 0 }) demoState).2.2 rfl⟩

/-- C10: on an empty registry (in particular right after a prior
`destroy_all_windows`) another `destroy_all_windows` destroys no handles,
performs no native call, and leaves the registry empty. -/
theorem destroy_all_on_empty_registry (s : UIState) (h : s.windows = []) :
    (Window.destroy_all_windows s).state.destroyLog = s.destroyLog ∧
    (Window.destroy_all_windows s).state.windows = [] ∧
    (Window.destroy_all_windows s).events = [] := by
  unfold Window.destroy_all_windows
  rw [h]
  exact ⟨rfl, rfl, rfl⟩

/-- C10 witness: the fresh state has an empty registry. -/
theorem destroy_all_on_empty_registry_witness :
    initState.windows = [] ∧
    ((Window.destroy_all_windows initState).state.destroyLog = initState.destroyLog ∧
     (Window.destroy_all_windows initState).state.windows = [] ∧
     (Window.destroy_all_windows initState).events = []) :=
  ⟨rfl, destroy_all_on_empty_registry initState rfl⟩

end LibUI
